import Mathlib

/-!
Verification of the CBM "Living Crystal" loader.

Shallow embedding of `src/CBM.jl/src/cpp/cbm_loader.cpp` and
`src/CBM.jl/src/native/cbm_core.c`.

Modelling conventions:

* Bytes are `Nat` values (< 256 in any well-formed file; the embedding does
  not need the bound for the properties proved here).
* A C++ `std::ifstream` is an `IStream`: the file contents, a read position,
  and the fail state.  `istream_read` mirrors `istream::read`: on a failed
  stream nothing is extracted; otherwise up to `n` bytes are copied into the
  destination buffer, and failbit is set when fewer than `n` were available.
* The structs `CBMHeader` (16 bytes: magic at offset 0, version at 4, flags
  at 6, reserved at 8) and `CBMMetadata` (104 bytes: model_name at 0,
  architecture at 64, seed_size at 96, graph_node_count at 100) are read by
  `reinterpret_cast` over their raw memory, so the model keeps them as raw
  byte buffers with little-endian accessor functions (x86-64 host).
* The CUDA device pointer `d_weights` is `Option Unit` (`none` = `nullptr`).
  The outcome of `cudaMalloc` for the output buffer is an explicit `Bool`
  parameter (`allocOk`) of `materialize_intelligence`.
* `size_t` is 64-bit and `int` is 32-bit (LP64), so the block-count
  computation `int blocks = (param_count + threads - 1) / threads` is
  embedded with the explicit `% 2^64` of the unsigned addition and the
  `% 2^32` wrap of the conversion of the 64-bit quotient to `int`.
-/

set_option autoImplicit false

namespace CBM

/-- The bytes of the 4-byte magic literal `"CBNQ"` (`CBM_MAGIC`). -/
def cbm_magic : List Nat := [67, 66, 78, 81]

/-- The constant `CBM_VERSION` (0x0100). -/
def cbm_version : Nat := 256

/-- State of a `std::ifstream` opened in binary mode: file contents, current
read position, and whether failbit/eofbit is set. -/
structure IStream where
  data : List Nat
  pos : Nat
  failed : Bool
  deriving Repr, DecidableEq

/-- Embedding of `istream::read(dst, n)`, where `dst` holds the current raw
bytes of the destination object (length `n`).  On a failed stream nothing
happens; else the available bytes (at most `n`) overwrite the front of `dst`,
the position advances by the number extracted, and failbit is set on a short
read. -/
def istream_read (s : IStream) (dst : List Nat) (n : Nat) : IStream × List Nat :=
  if s.failed then (s, dst)
  else
    let avail := (s.data.drop s.pos).take n
    ({ s with pos := s.pos + avail.length, failed := decide (avail.length < n) },
     avail ++ dst.drop avail.length)

/-- C `strncmp(a, b, n)`: compare byte-wise (as unsigned char values),
stopping at the first difference or at a common null byte within `n`
bytes. -/
def strncmp : List Nat → List Nat → Nat → Int
  | _, _, 0 => 0
  | [], [], _ + 1 => 0
  | [], y :: _, _ + 1 => -(y : Int)
  | x :: _, [], _ + 1 => (x : Int)
  | x :: xs, y :: ys, n + 1 =>
    if x ≠ y then (x : Int) - (y : Int)
    else if x = 0 then 0
    else strncmp xs ys n

/-- Little-endian decode of two consecutive bytes (a `uint16_t` in memory). -/
def decode_u16le (b0 b1 : Nat) : Nat := b0 + 256 * b1

/-- Little-endian decode of four consecutive bytes (a `uint32_t` in memory). -/
def decode_u32le (b0 b1 b2 b3 : Nat) : Nat :=
  b0 + 256 * b1 + 65536 * b2 + 16777216 * b3

/-- The aggregate `struct CBM_Model`: the header and metadata structs are
kept as their raw memory (16 and 104 bytes), `seed` is the
`std::vector<uint8_t>`, `d_weights` the device pointer (`none` = `nullptr`),
`weight_count` the `size_t` count. -/
structure CBM_Model where
  header_bytes : List Nat
  meta_bytes : List Nat
  seed : List Nat
  d_weights : Option Unit
  weight_count : Nat
  deriving Repr, DecidableEq

/-- Zero initialization `CBM_Model model = {};` performed in `main`. -/
def zeroModel : CBM_Model :=
  { header_bytes := List.replicate 16 0
    meta_bytes := List.replicate 104 0
    seed := []
    d_weights := none
    weight_count := 0 }

/-- Accessor for `header.magic`: bytes 0 to 3 of the header struct. -/
def CBM_Model.magic (m : CBM_Model) : List Nat := m.header_bytes.take 4

/-- Accessor for `header.version`: the `uint16_t` at offset 4 of the header
struct. -/
def CBM_Model.version (m : CBM_Model) : Nat :=
  decode_u16le (m.header_bytes.getD 4 0) (m.header_bytes.getD 5 0)

/-- Accessor for `metadata.seed_size`: the `uint32_t` at offset 96 of the
metadata struct (file offset 112). -/
def CBM_Model.seed_size (m : CBM_Model) : Nat :=
  decode_u32le (m.meta_bytes.getD 96 0) (m.meta_bytes.getD 97 0)
    (m.meta_bytes.getD 98 0) (m.meta_bytes.getD 99 0)

/-- The pair printed by the loader for the header version:
`(version >> 8, version & 0xFF)`. -/
def version_pair (v : Nat) : Nat × Nat := (v >>> 8, v &&& 255)

/-- Embedding of `std::vector::resize(n)`: keep the first `n` elements,
value-initialize (zero) any extension. -/
def vector_resize (v : List Nat) (n : Nat) : List Nat :=
  v.take n ++ List.replicate (n - v.length) 0

/-- The body of `load_cbm_file(path, model)` once the file is open, acting on
the opened stream.  Returns the C++ `bool` result, the updated model, and the
final stream state.  Mirrors the source line by line: read the 16 header
bytes, check the magic with `strncmp`, read the 104 metadata bytes, resize
the seed vector to `metadata.seed_size` and read that many bytes.  (The
source never checks the stream after the metadata and seed reads.) -/
def load_cbm_file (file : List Nat) (model : CBM_Model) :
    Bool × CBM_Model × IStream :=
  let s0 : IStream := { data := file, pos := 0, failed := false }
  let r1 := istream_read s0 model.header_bytes 16
  let m1 := { model with header_bytes := r1.2 }
  if strncmp m1.header_bytes cbm_magic 4 ≠ 0 then
    (false, m1, r1.1)
  else
    let r2 := istream_read r1.1 m1.meta_bytes 104
    let m2 := { m1 with meta_bytes := r2.2 }
    let resized := vector_resize m2.seed m2.seed_size
    let r3 := istream_read r2.1 resized m2.seed_size
    let m3 := { m2 with seed := r3.2 }
    (true, m3, r3.1)

/-- The fixed one-dimensional block size `int threads = 256;`. -/
def cbm_threads : Nat := 256

/-- The block count `int blocks = (param_count + threads - 1) / threads;`
with `param_count` a 64-bit `size_t` and `blocks` a 32-bit `int`: the sum
wraps modulo `2^64`, the quotient is taken in `uint64_t`, and the
out-of-range conversion to `int` wraps modulo `2^32` (the value here is the
resulting bit pattern read as unsigned; every input used in the theorems
below stays under `2^31`, where the pattern and the `int` value agree). -/
def cbm_blocks (param_count : Nat) : Nat :=
  (((param_count + cbm_threads - 1) % 18446744073709551616) / cbm_threads) %
    4294967296

/-- Embedding of `materialize_intelligence(model, param_count)`.  `allocOk`
is the outcome of the `cudaMalloc` of the `param_count * sizeof(float)`
output buffer.  The source sets `weight_count` *before* the allocation; on
allocation failure it returns `false` without touching `d_weights`; on
success the allocated buffer is attached as the device handle.  (The staging
of the seed into a temporary device buffer and its `cudaFree` have no effect
on the model record.) -/
def materialize_intelligence (allocOk : Bool) (model : CBM_Model)
    (param_count : Nat) : Bool × CBM_Model :=
  let m1 := { model with weight_count := param_count }
  if allocOk then
    (true, { m1 with d_weights := some () })
  else
    (false, m1)

/-- Embedding of `destroy_model(model)`: free the device buffer if the handle
is non-null and clear it, then clear the host seed vector.  The `Bool`
records whether `cudaFree(model->d_weights)` was invoked (a device release
happened). -/
def destroy_model (model : CBM_Model) : CBM_Model × Bool :=
  if model.d_weights.isSome then
    ({ model with d_weights := none, seed := [] }, true)
  else
    ({ model with seed := [] }, false)

/-- Embedding of `main`: `argPresent` is `argc >= 2`; `fileContents` is
`some` the bytes of the file when it can be opened, `none` on open failure;
`pcArg` is the parsed optional `param_count` argument; `allocOk` the device
allocator outcome.  Returns the process exit code. -/
def cbm_main (argPresent : Bool) (fileContents : Option (List Nat))
    (pcArg : Option Nat) (allocOk : Bool) : Nat :=
  if !argPresent then 1
  else
    match fileContents with
    | none => 1
    | some file =>
      let r := load_cbm_file file zeroModel
      if !r.1 then 1
      else
        let param_count := pcArg.getD 7000000000
        let r2 := materialize_intelligence allocOk r.2.1 param_count
        if !r2.1 then 1
        else
          let _final := destroy_model r2.2
          0

/-! ## Native core (cbm_core.c) -/

/-- The key `(unsigned char)(PHI * 255)` with `PHI = 0.618033988749895`,
computed here in exact rational arithmetic as a floor.  The exact product is
`157.598667131223225...`; double-precision evaluation of the same expression
differs by far less than the distance to the integers 157 and 158, so the C
cast truncates to the identical value. -/
def transmute_key : Nat := 618033988749895 * 255 / 1000000000000000

/-- The loop of `cbm_holographic_transmute`, carrying the running index `i`:
`for (int i = 0; i < size; i++) seed[i] ^= (unsigned char)(PHI * 255);`.
Indices `i < size` are XORed with the key, the rest are untouched.  (For
`size` greater than the buffer length the C loop would read out of bounds;
the embedding stops at the end of the buffer.) -/
def transmuteGo (size : Nat) : Nat → List Nat → List Nat
  | _, [] => []
  | i, b :: rest =>
    (if i < size then b ^^^ transmute_key else b) :: transmuteGo size (i + 1) rest

/-- Embedding of `cbm_holographic_transmute(seed, size)`. -/
def cbm_holographic_transmute (seed : List Nat) (size : Nat) : List Nat :=
  transmuteGo size 0 seed

/-! ## Pipeline traces

The lifecycle of one `CBM_Model` record: any sequence of parse, materialize
and destroy calls applied to the zero-initialized aggregate, as `main`
performs them. -/

/-- One call of the pipeline on a model record. -/
inductive PipelineStep where
  | parse (file : List Nat)
  | materialize (allocOk : Bool) (param_count : Nat)
  | destroy
  deriving Repr, DecidableEq

/-- Run a sequence of pipeline calls against a model record. -/
def runPipeline (m : CBM_Model) : List PipelineStep → CBM_Model
  | [] => m
  | PipelineStep.parse f :: rest => runPipeline (load_cbm_file f m).2.1 rest
  | PipelineStep.materialize ok pc :: rest =>
    runPipeline (materialize_intelligence ok m pc).2 rest
  | PipelineStep.destroy :: rest => runPipeline (destroy_model m).1 rest

/-- Whether, after the given calls, some materialization has returned success
with no destroy after it (`g` is that state before the calls). -/
def matLive (g : Bool) : List PipelineStep → Bool
  | [] => g
  | PipelineStep.parse _ :: rest => matLive g rest
  | PipelineStep.materialize ok _ :: rest => matLive (g || ok) rest
  | PipelineStep.destroy :: rest => matLive false rest

/-! ## Concrete container files -/

/-- A container whose header and metadata are well formed (magic `"CBNQ"`,
version 0x0100 little-endian, `seed_size = 2`) but whose seed payload holds a
single byte 0x2A — exactly one byte short of the declared seed size. -/
def truncFile : List Nat :=
  [67, 66, 78, 81, 0, 1, 0, 0] ++ List.replicate 8 0 ++
    List.replicate 96 0 ++ [2, 0, 0, 0] ++ [0, 0, 0, 0] ++ [42]

/-- A well-formed container: magic `"CBNQ"`, version 0x0100, `seed_size = 0`,
empty seed payload. -/
def goodFile : List Nat :=
  [67, 66, 78, 81, 0, 1, 0, 0] ++ List.replicate 8 0 ++
    List.replicate 96 0 ++ [0, 0, 0, 0] ++ [0, 0, 0, 0]

/-! ## Helper lemmas -/

/-- Resizing produces exactly the requested length. -/
lemma vector_resize_length (v : List Nat) (n : Nat) :
    (vector_resize v n).length = n := by
  simp [vector_resize, List.length_take]
  omega

/-- Reading into a buffer of length at least `n` preserves the buffer
length. -/
lemma istream_read_length (s : IStream) (dst : List Nat) (n : Nat)
    (h : n ≤ dst.length) : ((istream_read s dst n).2).length = dst.length := by
  unfold istream_read
  split
  · rfl
  · simp [List.length_append, List.length_drop, List.length_take]
    omega

/-- After a destroy call the device handle is always absent. -/
lemma destroy_model_d_weights (m : CBM_Model) :
    ((destroy_model m).1).d_weights = none := by
  cases hm : m.d_weights <;> simp [destroy_model, hm]

/-- Parsing never touches the device handle. -/
lemma load_cbm_file_d_weights (f : List Nat) (m : CBM_Model) :
    ((load_cbm_file f m).2.1).d_weights = m.d_weights := by
  unfold load_cbm_file
  dsimp only
  split <;> rfl

/-- Parsing never touches the weight count. -/
lemma load_cbm_file_weight_count (f : List Nat) (m : CBM_Model) :
    ((load_cbm_file f m).2.1).weight_count = m.weight_count := by
  unfold load_cbm_file
  dsimp only
  split <;> rfl

/-- The magic comparison succeeds exactly when the first four bytes are the
magic literal (which contains no null byte). -/
lemma strncmp_magic_cons (a b c d : Nat) (l : List Nat) :
    (strncmp (a :: b :: c :: d :: l) cbm_magic 4 = 0) ↔
      ([a, b, c, d] = cbm_magic) := by
  simp only [cbm_magic, strncmp]
  split_ifs <;> simp_all <;> omega

/-- Unfolding of the failure branch of the parser. -/
lemma load_cbm_file_bad (file : List Nat) (m : CBM_Model)
    (hm : strncmp ((istream_read ⟨file, 0, false⟩ m.header_bytes 16).2)
        cbm_magic 4 ≠ 0) :
    load_cbm_file file m =
      (false,
        { m with header_bytes := (istream_read ⟨file, 0, false⟩ m.header_bytes 16).2 },
        (istream_read ⟨file, 0, false⟩ m.header_bytes 16).1) := by
  unfold load_cbm_file
  dsimp only
  rw [if_pos hm]

/-- When the magic matches, the parser reports success. -/
lemma load_cbm_file_good (file : List Nat) (m : CBM_Model)
    (hm : ¬ strncmp ((istream_read ⟨file, 0, false⟩ m.header_bytes 16).2)
        cbm_magic 4 ≠ 0) :
    (load_cbm_file file m).1 = true := by
  unfold load_cbm_file
  dsimp only
  rw [if_neg hm]

/-- Unfolding of the success branch of the parser. -/
lemma load_cbm_file_good_eq (file : List Nat) (m : CBM_Model)
    (hm : ¬ strncmp ((istream_read ⟨file, 0, false⟩ m.header_bytes 16).2)
        cbm_magic 4 ≠ 0) :
    load_cbm_file file m =
      (let r1 := istream_read ⟨file, 0, false⟩ m.header_bytes 16
       let m1 := { m with header_bytes := r1.2 }
       let r2 := istream_read r1.1 m1.meta_bytes 104
       let m2 := { m1 with meta_bytes := r2.2 }
       let r3 := istream_read r2.1 (vector_resize m2.seed m2.seed_size) m2.seed_size
       (true, { m2 with seed := r3.2 }, r3.1)) := by
  unfold load_cbm_file
  dsimp only
  rw [if_neg hm]

/-- The header bytes produced by reading a file of at least four bytes into
the zeroed header buffer. -/
lemma header_read_cons (a b c d : Nat) (rest : List Nat) (dst : List Nat) :
    (istream_read ⟨a :: b :: c :: d :: rest, 0, false⟩ dst 16).2 =
      a :: b :: c :: d ::
        (rest.take 12 ++ dst.drop (a :: b :: c :: d :: rest.take 12).length) := by
  simp [istream_read]

/-- The pipeline invariant behind claim C2, generalized over the starting
model and its ghost state. -/
lemma runPipeline_d_weights (steps : List PipelineStep) :
    ∀ (m : CBM_Model) (g : Bool), m.d_weights.isSome = g →
      (runPipeline m steps).d_weights.isSome = matLive g steps := by
  induction steps with
  | nil => intro m g hg; simpa [runPipeline, matLive] using hg
  | cons s rest ih =>
    intro m g hg
    cases s with
    | parse f =>
      simp only [runPipeline, matLive]
      exact ih _ _ (by rw [load_cbm_file_d_weights]; exact hg)
    | materialize ok pc =>
      simp only [runPipeline, matLive]
      refine ih _ _ ?_
      cases ok
      · simpa [materialize_intelligence] using hg
      · simp [materialize_intelligence]
    | destroy =>
      simp only [runPipeline, matLive]
      exact ih _ _ (by simp [destroy_model_d_weights])

/-- Applying the transmutation loop twice from the same index restores the
buffer. -/
lemma transmuteGo_transmuteGo (size : Nat) : ∀ (i : Nat) (l : List Nat),
    transmuteGo size i (transmuteGo size i l) = l := by
  intro i l
  induction l generalizing i with
  | nil => rfl
  | cons b rest ih =>
    by_cases hi : i < size
    · simp only [transmuteGo, if_pos hi, Nat.xor_cancel_right, ih]
    · simp only [transmuteGo, if_neg hi, ih]

/-- Element-wise description of the transmutation loop started at index
`j`. -/
lemma transmuteGo_get (size : Nat) : ∀ (l : List Nat) (j i : Nat),
    (transmuteGo size j l).get? i =
      (l.get? i).map (fun b => if j + i < size then b ^^^ transmute_key else b) := by
  intro l
  induction l with
  | nil => intro j i; rfl
  | cons b rest ih =>
    intro j i
    cases i with
    | zero => simp [transmuteGo]
    | succ i =>
      simp only [transmuteGo, List.get?_cons_succ]
      rw [ih (j + 1) i]
      have hji : j + 1 + i = j + (i + 1) := by omega
      rw [hji]

/-! ## Claims -/

/-- Claim C1 (code_bug evaluation).  On a container exactly one byte short of
the declared `seed_size = 2`, `load_cbm_file` returns success anyway: the
seed buffer is `[42, 0]` — the one available byte plus a zero filled in by
`resize` — and the stream fail state set by the short read is never
inspected.  The claimed TruncatedFileError does not exist on this path. -/
theorem c1_truncated_file_accepted :
    (load_cbm_file truncFile zeroModel).1 = true ∧
    (load_cbm_file truncFile zeroModel).2.1.seed = [42, 0] ∧
    (load_cbm_file truncFile zeroModel).2.1.seed_size = 2 ∧
    (load_cbm_file truncFile zeroModel).2.2.failed = true := by
  decide

/-- Claim C2.  Across every pipeline trace started from the zero-initialized
model — in particular after zero initialization, after any parse, after any
materialization and after any destroy — the device handle is present exactly
when some materialization has returned success and no destroy has run since. -/
theorem c2_handle_iff_materialized (steps : List PipelineStep) :
    (runPipeline zeroModel steps).d_weights.isSome = matLive false steps :=
  runPipeline_d_weights steps zeroModel false rfl

/-- Claim C3 (counterexample).  When the device allocation is rejected on the
zero-initialized model with `param_count = 16`, the failing exit leaves no
device handle, but `weight_count` — the count of parameters realized in
device memory — has already been set to 16, not 0: the claim that the failed
Model records no realized parameters is false. -/
theorem c3_weight_count_retained_cex :
    (materialize_intelligence false zeroModel 16).1 = false ∧
    (materialize_intelligence false zeroModel 16).2.d_weights = none ∧
    (materialize_intelligence false zeroModel 16).2.weight_count = 16 ∧
    (materialize_intelligence false zeroModel 16).2.weight_count ≠ 0 := by
  decide

/-- Claim C3 (amended).  For every Model without a device handle and every
`param_count`, a materialization whose device allocation is rejected returns
failure and does not attach a weight buffer — the handle stays absent — but
`weight_count` has already been set to `param_count` before the allocation
attempt. -/
theorem c3_alloc_failure_no_handle (m : CBM_Model) (pc : Nat)
    (h : m.d_weights = none) :
    (materialize_intelligence false m pc).1 = false ∧
    (materialize_intelligence false m pc).2.d_weights = none ∧
    (materialize_intelligence false m pc).2.weight_count = pc := by
  simp [materialize_intelligence, h]

/-- Claim C3 witness: the amended statement at the zero model and
`param_count = 16`. -/
theorem c3_alloc_failure_no_handle_witness :
    (materialize_intelligence false zeroModel 16).1 = false ∧
    (materialize_intelligence false zeroModel 16).2.d_weights = none ∧
    (materialize_intelligence false zeroModel 16).2.weight_count = 16 :=
  c3_alloc_failure_no_handle zeroModel 16 rfl

/-- Claim C4.  For every file whose first four bytes differ from the magic
literal, parsing fails, the stream position never passes the 16-byte header
block (no metadata and no seed bytes are read), and the returned record is no
partial Model: the metadata buffer is untouched, the seed is empty and the
device handle absent. -/
theorem c4_bad_magic_rejected (file : List Nat) (h : file.take 4 ≠ cbm_magic) :
    (load_cbm_file file zeroModel).1 = false ∧
    (load_cbm_file file zeroModel).2.2.pos ≤ 16 ∧
    (load_cbm_file file zeroModel).2.1.meta_bytes = zeroModel.meta_bytes ∧
    (load_cbm_file file zeroModel).2.1.seed = [] ∧
    (load_cbm_file file zeroModel).2.1.d_weights = none := by
  rcases file with _ | ⟨a, _ | ⟨b, _ | ⟨c, _ | ⟨d, rest⟩⟩⟩⟩
  · exact ⟨by decide, by decide, by decide, by decide, by decide⟩
  · have hm : strncmp ((istream_read ⟨[a], 0, false⟩ zeroModel.header_bytes 16).2)
        cbm_magic 4 ≠ 0 := by
      simp [istream_read, zeroModel, strncmp, cbm_magic]
      split_ifs <;> simp_all <;> omega
    rw [load_cbm_file_bad _ _ hm]
    refine ⟨rfl, ?_, rfl, rfl, rfl⟩
    simp [istream_read]
  · have hm : strncmp ((istream_read ⟨[a, b], 0, false⟩ zeroModel.header_bytes 16).2)
        cbm_magic 4 ≠ 0 := by
      simp [istream_read, zeroModel, strncmp, cbm_magic]
      split_ifs <;> simp_all <;> omega
    rw [load_cbm_file_bad _ _ hm]
    refine ⟨rfl, ?_, rfl, rfl, rfl⟩
    simp [istream_read]
  · have hm : strncmp ((istream_read ⟨[a, b, c], 0, false⟩ zeroModel.header_bytes 16).2)
        cbm_magic 4 ≠ 0 := by
      simp [istream_read, zeroModel, strncmp, cbm_magic]
      split_ifs <;> simp_all <;> omega
    rw [load_cbm_file_bad _ _ hm]
    refine ⟨rfl, ?_, rfl, rfl, rfl⟩
    simp [istream_read]
  · have h4 : [a, b, c, d] ≠ cbm_magic := by simpa using h
    have hm : strncmp
        ((istream_read ⟨a :: b :: c :: d :: rest, 0, false⟩ zeroModel.header_bytes 16).2)
        cbm_magic 4 ≠ 0 := by
      rw [header_read_cons]
      exact fun hz => h4 ((strncmp_magic_cons a b c d _).1 hz)
    rw [load_cbm_file_bad _ _ hm]
    refine ⟨rfl, ?_, rfl, rfl, rfl⟩
    simp [istream_read, List.length_take]

/-- Claim C4 witness: a concrete four-byte file of zeros is rejected without
reading past the header. -/
theorem c4_bad_magic_rejected_witness :
    (load_cbm_file [0, 0, 0, 0] zeroModel).1 = false ∧
    (load_cbm_file [0, 0, 0, 0] zeroModel).2.2.pos ≤ 16 ∧
    (load_cbm_file [0, 0, 0, 0] zeroModel).2.1.meta_bytes = zeroModel.meta_bytes ∧
    (load_cbm_file [0, 0, 0, 0] zeroModel).2.1.seed = [] ∧
    (load_cbm_file [0, 0, 0, 0] zeroModel).2.1.d_weights = none :=
  c4_bad_magic_rejected [0, 0, 0, 0] (by decide)

/-- Claim C5.  Whenever parsing (from the zero-initialized model, as `main`
calls it) reports success, the returned Model has a seed buffer of length
exactly `metadata.seed_size`, an absent device handle and `weight_count`
zero. -/
theorem c5_parse_success (file : List Nat)
    (h : (load_cbm_file file zeroModel).1 = true) :
    ((load_cbm_file file zeroModel).2.1).seed.length =
      ((load_cbm_file file zeroModel).2.1).seed_size ∧
    ((load_cbm_file file zeroModel).2.1).d_weights = none ∧
    ((load_cbm_file file zeroModel).2.1).weight_count = 0 := by
  by_cases hm : strncmp
      ((istream_read ⟨file, 0, false⟩ zeroModel.header_bytes 16).2) cbm_magic 4 ≠ 0
  · rw [load_cbm_file_bad _ _ hm] at h
    simp at h
  · rw [load_cbm_file_good_eq _ _ hm]
    refine ⟨?_, rfl, rfl⟩
    show (istream_read _ (vector_resize _ _) _).2.length = _
    rw [istream_read_length]
    · exact vector_resize_length _ _
    · rw [vector_resize_length]

/-- Claim C5 witness: the well-formed container parses successfully and the
invariants hold on the result. -/
theorem c5_parse_success_witness :
    ((load_cbm_file goodFile zeroModel).2.1).seed.length =
      ((load_cbm_file goodFile zeroModel).2.1).seed_size ∧
    ((load_cbm_file goodFile zeroModel).2.1).d_weights = none ∧
    ((load_cbm_file goodFile zeroModel).2.1).weight_count = 0 :=
  c5_parse_success goodFile (by decide)

/-- Claim C6 (counterexample).  For `param_count = 2^40` the 64-bit quotient
`(param_count + 255) / 256 = 2^32` does not fit the 32-bit `int blocks`; the
conversion wraps to 0, so the computed block count is not
`ceil(param_count / 256)` (which is `param_count / 256 = 2^32` here since
`param_count` is divisible by 256). -/
theorem c6_block_count_overflow_cex :
    cbm_blocks 1099511627776 = 0 ∧
    1099511627776 % 256 = 0 ∧
    1099511627776 / 256 = 4294967296 ∧
    cbm_blocks 1099511627776 ≠ 1099511627776 / 256 := by
  decide

/-- Claim C6 (amended).  For every `param_count` of at most `2^39 - 256`
(so that the computed block count fits the 32-bit `int`), the launch geometry
is one-dimensional with fixed block size 256 and block count
`ceil(param_count / 256)`; in particular it equals 4 at
`param_count = 1000`. -/
theorem c6_launch_geometry (param_count : Nat)
    (h : param_count ≤ 549755813632) :
    cbm_threads = 256 ∧
    cbm_blocks param_count =
      param_count / 256 + (if param_count % 256 = 0 then 0 else 1) := by
  refine ⟨rfl, ?_⟩
  unfold cbm_blocks cbm_threads
  split_ifs with h0 <;> omega

/-- Claim C6 witness: at `param_count = 1000` the geometry is 256 execution
units per block and 4 blocks. -/
theorem c6_launch_geometry_witness :
    cbm_threads = 256 ∧ cbm_blocks 1000 = 4 := by
  have h := c6_launch_geometry 1000 (by norm_num)
  norm_num at h
  exact h

/-- Claim C7.  Destroy is idempotent: a second destroy returns the same model
and performs no device release, the handle is absent after any destroy, and a
destroy on a model whose handle is already absent releases nothing and only
clears the seed buffer. -/
theorem c7_destroy_idempotent (m : CBM_Model) :
    destroy_model (destroy_model m).1 = ((destroy_model m).1, false) ∧
    ((destroy_model m).1).d_weights = none ∧
    (m.d_weights = none → destroy_model m = ({ m with seed := [] }, false)) := by
  cases hm : m.d_weights <;> simp [destroy_model, hm]

/-- Claim C7 witness: both destroy calls on the zero model, whose handle is
absent, are no-ops that release nothing. -/
theorem c7_destroy_idempotent_witness :
    destroy_model (destroy_model zeroModel).1 = ((destroy_model zeroModel).1, false) ∧
    destroy_model zeroModel = ({ zeroModel with seed := [] }, false) :=
  ⟨(c7_destroy_idempotent zeroModel).1, (c7_destroy_idempotent zeroModel).2.2 rfl⟩

/-- Claim C8 (code_bug evaluation).  The command exits 0 on the truncated
container (with the default parameter count and a succeeding allocation),
because the parser accepts the truncated seed; the claimed exit code 1 for
the truncation failure category does not happen.  The other failure
categories — missing argument, open failure, bad magic, allocation failure —
do exit 1, and the fully successful run exits 0. -/
theorem c8_truncated_exit_zero :
    cbm_main true (some truncFile) none true = 0 ∧
    cbm_main false none none true = 1 ∧
    cbm_main true none none true = 1 ∧
    cbm_main true (some [0, 0, 0, 0]) none true = 1 ∧
    cbm_main true (some goodFile) none false = 1 ∧
    cbm_main true (some goodFile) none true = 0 := by
  decide

/-- Claim C9.  For every 16-bit version value the recorded pair
`(version >> 8, version & 0xFF)` is exactly (high byte, low byte); the
constant 0x0100 decodes to major 1, minor 0; and once the magic matches the
parser always reports success — no version value is ever rejected. -/
theorem c9_version_decoding :
    (∀ v : Nat, v < 65536 → version_pair v = (v / 256, v % 256)) ∧
    version_pair cbm_version = (1, 0) ∧
    (∀ file : List Nat, file.take 4 = cbm_magic →
      (load_cbm_file file zeroModel).1 = true) := by
  refine ⟨?_, by decide, ?_⟩
  · intro v hv
    have h1 := Nat.shiftRight_eq_div_pow v 8
    have h2 := Nat.and_pow_two_sub_one_eq_mod v 8
    simp only [version_pair]
    rw [h1]
    norm_num
    have h2' : v &&& 255 = v % 256 := by simpa using h2
    exact h2'
  · intro file h
    rcases file with _ | ⟨a, _ | ⟨b, _ | ⟨c, _ | ⟨d, rest⟩⟩⟩⟩ <;>
      simp [cbm_magic] at h
    obtain ⟨ha, hb, hc, hd⟩ := h
    subst ha; subst hb; subst hc; subst hd
    apply load_cbm_file_good
    rw [header_read_cons]
    simp only [ne_eq, not_not]
    exact (strncmp_magic_cons _ _ _ _ _).2 rfl

/-- Claim C9 witness: the decode at the constant version value 0x0100 and a
successful parse of a file carrying the magic. -/
theorem c9_version_decoding_witness :
    version_pair 256 = (256 / 256, 256 % 256) ∧
    (load_cbm_file goodFile zeroModel).1 = true :=
  ⟨c9_version_decoding.1 256 (by norm_num),
    c9_version_decoding.2.2 goodFile (by decide)⟩

/-- Claim C10.  The seed transform XORs exactly the first `size` bytes with
the single fixed key byte `(unsigned char)(PHI * 255) = 157`, leaves every
byte at index at least `size` unchanged, and applying it twice restores every
buffer. -/
theorem c10_transmute_involution :
    (∀ (seed : List Nat) (size : Nat),
      cbm_holographic_transmute (cbm_holographic_transmute seed size) size = seed) ∧
    (∀ (seed : List Nat) (size i : Nat),
      (cbm_holographic_transmute seed size).get? i =
        (seed.get? i).map (fun b => if i < size then b ^^^ transmute_key else b)) ∧
    transmute_key = 157 := by
  refine ⟨?_, ?_, by decide⟩
  · intro seed size
    exact transmuteGo_transmuteGo size 0 seed
  · intro seed size i
    have h := transmuteGo_get size seed 0 i
    simpa [cbm_holographic_transmute] using h

end CBM
